import Mathlib

/- Verification of the DSGNRG Creative Loop agent (creative_loop_agent.py):
   a shallow embedding of its record-store collections, id generation,
   date arithmetic and aggregator functions, with theorems about the
   documented behaviour. -/

/-! ## Calendar dates

Python `datetime.date` values are modelled as year-month-day triples.
Comparison and day arithmetic on dates go through the proleptic Gregorian
ordinal (`toOrdinal`, the day number with 0001-01-01 = 1), which is exactly
Python `date.toordinal()`; two valid dates compare (and subtract) the same
way their ordinals do. -/

structure Date where
  year : Nat
  month : Nat
  day : Nat
deriving DecidableEq, Repr

def isLeap (y : Nat) : Bool :=
  (y % 4 == 0 && y % 100 != 0) || y % 400 == 0

def daysInMonth (y m : Nat) : Nat :=
  if m = 2 then (if isLeap y then 29 else 28)
  else if m = 4 ∨ m = 6 ∨ m = 9 ∨ m = 11 then 30
  else 31

def daysBeforeYear (y : Nat) : Nat :=
  365 * (y - 1) + (y - 1) / 4 - (y - 1) / 100 + (y - 1) / 400

def daysBeforeMonth (y : Nat) : Nat → Nat
  | 0 => 0
  | 1 => 0
  | m + 1 => daysBeforeMonth y m + daysInMonth y m

def toOrdinal (d : Date) : Nat :=
  daysBeforeYear d.year + daysBeforeMonth d.year d.month + d.day

/-- Python `date.weekday()` on an ordinal: Monday = 0.
Ordinal 1 (0001-01-01) is a Monday. -/
def weekday (o : Nat) : Nat := (o + 6) % 7

/-! ## Decimal rendering of naturals

Python renders ids with `str(n)` and f-string interpolation; we embed that
as a fuel-based decimal printer (fuel `n + 1` is always sufficient). -/

def toDecChars : Nat → Nat → List Char
  | 0, _ => []
  | fuel + 1, n =>
    if n < 10 then [Nat.digitChar n]
    else toDecChars fuel (n / 10) ++ [Nat.digitChar (n % 10)]

def natToStr (n : Nat) : String := ⟨toDecChars (n + 1) n⟩

/-- Decimal parser used only to prove `natToStr` injective. -/
def decVal (l : List Char) : Nat :=
  l.foldl (fun a c => a * 10 + (c.toNat - 48)) 0

theorem digitChar_toNat_sub : ∀ d < 10, (Nat.digitChar d).toNat - 48 = d := by
  decide

theorem decVal_append_digit (l : List Char) (c : Char) :
    decVal (l ++ [c]) = decVal l * 10 + (c.toNat - 48) := by
  simp [decVal, List.foldl_append]

theorem decVal_toDecChars : ∀ fuel n, n < 10 ^ fuel →
    decVal (toDecChars fuel n) = n := by
  intro fuel
  induction fuel with
  | zero =>
    intro n hn
    interval_cases n
    simp [toDecChars, decVal]
  | succ f ih =>
    intro n hn
    by_cases h10 : n < 10
    · simp [toDecChars, h10, decVal, digitChar_toNat_sub n h10]
    · have hdiv : n / 10 < 10 ^ f := by
        have : n < 10 * 10 ^ f := by
          calc n < 10 ^ (f + 1) := hn
            _ = 10 * 10 ^ f := by ring
        exact Nat.div_lt_of_lt_mul this
      have := ih (n / 10) hdiv
      simp only [toDecChars, if_neg (by omega : ¬ n < 10)]
      rw [decVal_append_digit, this, digitChar_toNat_sub (n % 10) (Nat.mod_lt n (by omega))]
      omega

theorem lt_ten_pow_succ (n : Nat) : n < 10 ^ (n + 1) :=
  calc n < 10 ^ n := Nat.lt_pow_self (by norm_num) n
    _ ≤ 10 ^ (n + 1) := Nat.pow_le_pow_right (by norm_num) (Nat.le_succ n)

theorem natToStr_injective : Function.Injective natToStr := by
  intro a b hab
  have hdata : toDecChars (a + 1) a = toDecChars (b + 1) b :=
    congrArg String.data hab
  have ha := decVal_toDecChars (a + 1) a (lt_ten_pow_succ a)
  have hb := decVal_toDecChars (b + 1) b (lt_ten_pow_succ b)
  rw [← ha, ← hb, hdata]

theorem append_natToStr_inj (p : String) {a b : Nat}
    (h : p ++ natToStr a = p ++ natToStr b) : a = b := by
  apply natToStr_injective
  have hdata := congrArg String.data h
  simp only [String.data_append] at hdata
  exact String.ext (List.append_cancel_left hdata)

/-! ## Data model (the dataclasses of creative_loop_agent.py) -/

structure SonicSketch where
  duration_minutes : Int
  description : String
  audio_file : Option String
  tags : List String
  timestamp : String
deriving DecidableEq, Repr

structure VisualMoodboard where
  images : List String
  theme : String
  color_palette : List String
  timestamp : String
deriving DecidableEq, Repr

structure LoreFragment where
  character : String
  fragment : String
  narrative_arc : String
  world_building_elements : List String
  timestamp : String
deriving DecidableEq, Repr

structure CreativeInput where
  date : Date
  sonic_sketch : Option SonicSketch
  visual_moodboard : Option VisualMoodboard
  lore_fragment : Option LoreFragment
deriving DecidableEq, Repr

def CreativeInput.is_complete (c : CreativeInput) : Bool :=
  c.sonic_sketch.isSome && c.visual_moodboard.isSome && c.lore_fragment.isSome

structure CreativeProcess where
  sample_source : String
  remix_approach : String
  render_format : String
  emotion_tag : String
  tempo : Option Int
  lore_arc_connection : String
  timestamp : String
deriving DecidableEq, Repr

inductive OutputType where
  | micro
  | major
  | vst3
deriving DecidableEq, Repr

/-- The stored output document. `release_date` keeps the calendar-day part of
the stored release timestamp (the only part the aggregators consult, via
`fromisoformat(...).date()`). `modified_date` is absent until an edit sets
it, mirroring the dict gaining the key on `edit_vst3_plugin`. -/
structure CreativeOutput where
  title : String
  output_type : OutputType
  category : String
  file_path : Option String
  description : String
  release_date : Date
  tags : List String
  modified_date : Option String
deriving DecidableEq, Repr

/-- The task record (the source calls these simply tasks; `Task` itself is
taken by the Lean core library). -/
structure LoopTask where
  id : String
  text : String
  completed : Bool
  priority : String
  created_at : String
  completed_at : Option String
deriving DecidableEq, Repr

/-! ## Record store: JSON objects as association lists with Python dict
semantics (lookup by key; assignment replaces in place or appends). -/

def dictGet {κ α : Type} [DecidableEq κ] : List (κ × α) → κ → Option α
  | [], _ => none
  | p :: rest, k => if p.1 = k then some p.2 else dictGet rest k

def dictInsert {κ α : Type} [DecidableEq κ] : List (κ × α) → κ → α → List (κ × α)
  | [], k, a => [(k, a)]
  | p :: rest, k, a => if p.1 = k then (k, a) :: rest else p :: dictInsert rest k a

def dictKeys {κ α : Type} (l : List (κ × α)) : List κ := l.map (fun p => p.1)

abbrev Inputs := List (Date × CreativeInput)
abbrev Processes := List (String × CreativeProcess)
abbrev Outputs := List (String × CreativeOutput)

/-- `_load_data`: a missing or undecodable backing file (`FileNotFoundError`
or `JSONDecodeError`, modelled as `none`) loads as the empty collection. -/
def _load_data {α : Type} (contents : Option (List α)) : List α :=
  contents.getD []

/-! ## Input logging (log_sonic_sketch / log_visual_moodboard /
log_lore_fragment)

Each call loads the inputs collection, creates the empty `CreativeInput`
for the day when absent, sets its own sub-record and saves. The reference
day (`today`, or the explicit `date` argument of `log_sonic_sketch`) and
the creation timestamp are passed explicitly, mirroring the spec rule that
callers supply the reference date. -/

def emptyInput (date : Date) : CreativeInput :=
  { date := date, sonic_sketch := none, visual_moodboard := none,
    lore_fragment := none }

def log_sonic_sketch (inputs : Inputs) (duration_minutes : Int)
    (description : String) (audio_file : Option String) (tags : List String)
    (today : Date) (now : String) : Inputs :=
  let sketch : SonicSketch :=
    { duration_minutes := duration_minutes, description := description,
      audio_file := audio_file, tags := tags, timestamp := now }
  let base := (dictGet inputs today).getD (emptyInput today)
  dictInsert inputs today { base with sonic_sketch := some sketch }

def log_visual_moodboard (inputs : Inputs) (images : List String)
    (theme : String) (color_palette : List String)
    (today : Date) (now : String) : Inputs :=
  let moodboard : VisualMoodboard :=
    { images := images, theme := theme, color_palette := color_palette,
      timestamp := now }
  let base := (dictGet inputs today).getD (emptyInput today)
  dictInsert inputs today { base with visual_moodboard := some moodboard }

def log_lore_fragment (inputs : Inputs) (character : String)
    (fragment : String) (narrative_arc : String)
    (world_building_elements : List String)
    (today : Date) (now : String) : Inputs :=
  let lore : LoreFragment :=
    { character := character, fragment := fragment,
      narrative_arc := narrative_arc,
      world_building_elements := world_building_elements, timestamp := now }
  let base := (dictGet inputs today).getD (emptyInput today)
  dictInsert inputs today { base with lore_fragment := some lore }

/-! ## Output logging (log_micro_release / log_major_release /
log_vst3_plugin) -/

/-- Count of stored documents of a given output kind
(`len([o for o in outputs.values() if o.get("output_type") == kind])`). -/
def countType (outputs : Outputs) (t : OutputType) : Nat :=
  (outputs.filter (fun p => p.2.output_type == t)).length

def log_micro_release (outputs : Outputs) (title category : String)
    (file_path : Option String) (description : String) (tags : List String)
    (now : Date) : String × Outputs :=
  let output : CreativeOutput :=
    { title := title, output_type := OutputType.micro, category := category,
      file_path := file_path, description := description,
      release_date := now, tags := tags, modified_date := none }
  let output_id := "micro_" ++ natToStr (countType outputs OutputType.micro + 1)
  (output_id, dictInsert outputs output_id output)

def log_major_release (outputs : Outputs) (title category : String)
    (file_path : Option String) (description : String) (tags : List String)
    (now : Date) : String × Outputs :=
  let output : CreativeOutput :=
    { title := title, output_type := OutputType.major, category := category,
      file_path := file_path, description := description,
      release_date := now, tags := tags, modified_date := none }
  let output_id := "major_" ++ natToStr (countType outputs OutputType.major + 1)
  (output_id, dictInsert outputs output_id output)

def log_vst3_plugin (outputs : Outputs) (title : String)
    (file_path : Option String) (description : String) (tags : List String)
    (now : Date) : String × Outputs :=
  let output : CreativeOutput :=
    { title := title, output_type := OutputType.vst3, category := "plugin",
      file_path := file_path, description := description,
      release_date := now, tags := tags, modified_date := none }
  let output_id := "vst3_" ++ natToStr (countType outputs OutputType.vst3 + 1)
  (output_id, dictInsert outputs output_id output)

/-- `edit_vst3_plugin`: updates only the provided fields of an existing vst3
document and stamps `modified_date`; returns `False` (leaving the collection
as loaded, since the save is never reached) when the id is absent or the
document is not a vst3 plugin. -/
def edit_vst3_plugin (outputs : Outputs) (plugin_id : String)
    (title : Option String) (file_path : Option String)
    (description : Option String) (tags : Option (List String))
    (now : String) : Bool × Outputs :=
  match dictGet outputs plugin_id with
  | none => (false, outputs)
  | some doc =>
    if doc.output_type != OutputType.vst3 then (false, outputs)
    else
      let doc1 := match title with
        | none => doc
        | some t => { doc with title := t }
      let doc2 := match file_path with
        | none => doc1
        | some f => { doc1 with file_path := some f }
      let doc3 := match description with
        | none => doc2
        | some d => { doc2 with description := d }
      let doc4 := match tags with
        | none => doc3
        | some ts => { doc3 with tags := ts }
      let doc5 := { doc4 with modified_date := some now }
      (true, dictInsert outputs plugin_id doc5)

/-! ## Aggregators -/

structure DailyStatus where
  date : Date
  sonic_sketch_complete : Bool
  visual_moodboard_complete : Bool
  lore_fragment_complete : Bool
  daily_loop_complete : Bool
deriving DecidableEq, Repr

/-- `get_daily_completion_status`: looks the day up in the inputs collection
(`inputs.get(date, {})`); each flag is presence of the corresponding
sub-record, and the daily loop is complete when all three are present. -/
def get_daily_completion_status (inputs : Inputs) (date : Date) : DailyStatus :=
  let day_input := (dictGet inputs date).getD (emptyInput date)
  { date := date
    sonic_sketch_complete := day_input.sonic_sketch.isSome
    visual_moodboard_complete := day_input.visual_moodboard.isSome
    lore_fragment_complete := day_input.lore_fragment.isSome
    daily_loop_complete := day_input.sonic_sketch.isSome &&
      day_input.visual_moodboard.isSome && day_input.lore_fragment.isSome }

structure WeeklyProgress where
  week_start : Nat
  micro_releases_this_week : Nat
  vst3_plugins_this_week : Nat
  target_micro_releases : Nat
  target_vst3_plugins : Nat
  weekly_goal_met : Bool
deriving DecidableEq, Repr

/-- `get_weekly_progress`: `week_start = today - timedelta(days=today.weekday())`
(kept as an ordinal, the form in which the source only compares it); counts
stored micro and vst3 outputs whose release day is on or after `week_start`. -/
def get_weekly_progress (outputs : Outputs) (today : Date) : WeeklyProgress :=
  let week_start := toOrdinal today - weekday (toOrdinal today)
  let this_week_micros := outputs.filter (fun p =>
    decide (week_start ≤ toOrdinal p.2.release_date) &&
      p.2.output_type == OutputType.micro)
  let this_week_vst3 := outputs.filter (fun p =>
    decide (week_start ≤ toOrdinal p.2.release_date) &&
      p.2.output_type == OutputType.vst3)
  { week_start := week_start
    micro_releases_this_week := this_week_micros.length
    vst3_plugins_this_week := this_week_vst3.length
    target_micro_releases := 1
    target_vst3_plugins := 1
    weekly_goal_met := decide (1 ≤ this_week_micros.length) &&
      decide (1 ≤ this_week_vst3.length) }

structure MonthlyProgress where
  month_start : Date
  major_releases_this_month : Nat
  vst3_plugins_this_month : Nat
  target_major_releases : Nat
  target_vst3_plugins : Nat
  monthly_goal_met : Bool
deriving DecidableEq, Repr

/-- `get_monthly_progress`: `month_start = today.replace(day=1)`; counts
stored major and vst3 outputs whose release day is on or after `month_start`. -/
def get_monthly_progress (outputs : Outputs) (today : Date) : MonthlyProgress :=
  let month_start : Date := { today with day := 1 }
  let this_month_majors := outputs.filter (fun p =>
    decide (toOrdinal month_start ≤ toOrdinal p.2.release_date) &&
      p.2.output_type == OutputType.major)
  let this_month_vst3 := outputs.filter (fun p =>
    decide (toOrdinal month_start ≤ toOrdinal p.2.release_date) &&
      p.2.output_type == OutputType.vst3)
  { month_start := month_start
    major_releases_this_month := this_month_majors.length
    vst3_plugins_this_month := this_month_vst3.length
    target_major_releases := 1
    target_vst3_plugins := 4
    monthly_goal_met := decide (1 ≤ this_month_majors.length) &&
      decide (4 ≤ this_month_vst3.length) }

/-- The days whose `CreativeInput` has all three sub-records present
(the `completed_days` comprehension of `get_creative_stats`). -/
def completedDays (inputs : Inputs) : List Date :=
  (inputs.filter (fun p =>
    p.2.sonic_sketch.isSome && p.2.visual_moodboard.isSome &&
      p.2.lore_fragment.isSome)).map (fun p => p.1)

/-- The backward walk of `_calculate_current_streak`: starting at ordinal `o`,
count consecutive days that are members of the completed set. -/
def streakFrom (completed : List Nat) : Nat → Nat
  | 0 => if 0 ∈ completed then 1 else 0
  | o + 1 => if o + 1 ∈ completed then streakFrom completed o + 1 else 0

/-- `_calculate_current_streak`: walk back from `today` one calendar day at a
time while the day is a completed day (sorting the list does not affect
membership, so the embedding drops the sort). -/
def _calculate_current_streak (completed_days : List Date) (today : Date) : Nat :=
  streakFrom (completed_days.map toOrdinal) (toOrdinal today)

structure CreativeStats where
  total_input_days : Nat
  completed_input_days : Nat
  completion_rate : ℚ
  total_processes : Nat
  total_micro_releases : Nat
  total_major_releases : Nat
  total_vst3_plugins : Nat
  current_streak : Nat
deriving DecidableEq, Repr

/-- `get_creative_stats`: totals, the completion rate
`len(completed) / max(len(inputs), 1) * 100` (exact rational arithmetic in
place of Python float division) and the current streak. -/
def get_creative_stats (inputs : Inputs) (processes : Processes)
    (outputs : Outputs) (today : Date) : CreativeStats :=
  let completed := completedDays inputs
  { total_input_days := inputs.length
    completed_input_days := completed.length
    completion_rate := (completed.length : ℚ) / (max inputs.length 1 : ℚ) * 100
    total_processes := processes.length
    total_micro_releases := countType outputs OutputType.micro
    total_major_releases := countType outputs OutputType.major
    total_vst3_plugins := countType outputs OutputType.vst3
    current_streak := _calculate_current_streak completed today }

/-! ## Task management -/

def taskIds (tasks : List LoopTask) : List String := tasks.map (fun t => t.id)

/-- The id search loop of `add_task`: start at `n` and increment while the
decimal string collides with an existing id. The Python loop is unbounded;
`tasks.length + 1` steps always suffice (`exists_free_id` below), so the
fuel never runs out on the arguments `add_task` passes. -/
def freeFrom (ids : List String) : Nat → Nat → Nat
  | n, 0 => n
  | n, fuel + 1 => if natToStr n ∈ ids then freeFrom ids (n + 1) fuel else n

/-- `add_task`: assign the first collision-free decimal id starting from
`len(tasks) + 1`, append the new task and save. -/
def add_task (tasks : List LoopTask) (text priority : String)
    (now : String) : LoopTask × List LoopTask :=
  let task_id := natToStr (freeFrom (taskIds tasks) (tasks.length + 1) (tasks.length + 1))
  let new_task : LoopTask :=
    { id := task_id, text := text, completed := false, priority := priority,
      created_at := now, completed_at := none }
  (new_task, tasks ++ [new_task])

/-- `delete_task`: filter the task out; if nothing was removed raise
(`ValueError`, the NotFound case) before any save. -/
def delete_task (tasks : List LoopTask) (task_id : String) :
    Except String (List LoopTask) :=
  let filtered := tasks.filter (fun t => t.id != task_id)
  if filtered.length = tasks.length then
    Except.error ("Task with ID " ++ task_id ++ " not found")
  else
    Except.ok filtered

/-- The persisted task list after a `delete_task` call: on the error path the
save is never reached, so the backing file keeps the previous list. -/
def runDeleteTask (tasks : List LoopTask) (task_id : String) : List LoopTask :=
  match delete_task tasks task_id with
  | Except.ok l => l
  | Except.error _ => tasks

/-! ## Helper lemmas about the dict operations -/

theorem dictGet_dictInsert_self {κ α : Type} [DecidableEq κ]
    (l : List (κ × α)) (k : κ) (a : α) :
    dictGet (dictInsert l k a) k = some a := by
  induction l with
  | nil => simp [dictInsert, dictGet]
  | cons p rest ih =>
    by_cases h : p.1 = k
    · simp [dictInsert, dictGet, h]
    · simp [dictInsert, dictGet, h, ih]

theorem dictInsert_of_not_mem {κ α : Type} [DecidableEq κ]
    (l : List (κ × α)) (k : κ) (a : α) (h : k ∉ dictKeys l) :
    dictInsert l k a = l ++ [(k, a)] := by
  induction l with
  | nil => simp [dictInsert]
  | cons p rest ih =>
    simp only [dictKeys, List.map_cons, List.mem_cons] at h
    push_neg at h
    have h1 : ¬ p.1 = k := fun hp => h.1 hp.symm
    simp [dictInsert, h1, ih (by simp [dictKeys, h.2])]

theorem streakFrom_nil : ∀ o, streakFrom [] o = 0 := by
  intro o
  cases o <;> simp [streakFrom]

/-! ## C5: daily completion status -/

/-- C5: for every store state and date, each daily-status flag equals the
presence of the corresponding sub-record of the DailyInput for that date,
the overall flag is the conjunction of the three, and a date with no logged
input is reported not complete. -/
theorem daily_status_spec :
    ∀ (inputs : Inputs) (date : Date),
      ((get_daily_completion_status inputs date).sonic_sketch_complete = true ↔
        ∃ ci, dictGet inputs date = some ci ∧ ci.sonic_sketch.isSome = true)
      ∧ ((get_daily_completion_status inputs date).visual_moodboard_complete = true ↔
        ∃ ci, dictGet inputs date = some ci ∧ ci.visual_moodboard.isSome = true)
      ∧ ((get_daily_completion_status inputs date).lore_fragment_complete = true ↔
        ∃ ci, dictGet inputs date = some ci ∧ ci.lore_fragment.isSome = true)
      ∧ (get_daily_completion_status inputs date).daily_loop_complete =
          ((get_daily_completion_status inputs date).sonic_sketch_complete &&
           (get_daily_completion_status inputs date).visual_moodboard_complete &&
           (get_daily_completion_status inputs date).lore_fragment_complete)
      ∧ (dictGet inputs date = none →
          (get_daily_completion_status inputs date).daily_loop_complete = false) := by
  intro inputs date
  cases h : dictGet inputs date <;>
    simp [get_daily_completion_status, h, emptyInput]

/-- Witness for C5 at a concrete input: the empty store on 2024-01-01. -/
theorem daily_status_spec_witness :
    (get_daily_completion_status [] (Date.mk 2024 1 1)).daily_loop_complete = false :=
  (daily_status_spec [] (Date.mk 2024 1 1)).2.2.2.2 rfl

/-! ## C6: completing a day by logging all three inputs -/

/-- C6: logging a sonic sketch, a visual moodboard and a lore fragment for
the same date, in any of the six orders and starting from any store state,
makes the daily status for that date fully complete. -/
theorem log_all_three_completes :
    ∀ (inputs : Inputs) (date : Date)
      (dm : Int) (ds : String) (af : Option String) (tg : List String) (t1 : String)
      (im : List String) (th : String) (cp : List String) (t2 : String)
      (ch fr na : String) (we : List String) (t3 : String),
      ((get_daily_completion_status
        (log_lore_fragment (log_visual_moodboard (log_sonic_sketch inputs dm ds af tg date t1)
          im th cp date t2) ch fr na we date t3) date).daily_loop_complete = true)
      ∧ ((get_daily_completion_status
        (log_visual_moodboard (log_lore_fragment (log_sonic_sketch inputs dm ds af tg date t1)
          ch fr na we date t3) im th cp date t2) date).daily_loop_complete = true)
      ∧ ((get_daily_completion_status
        (log_lore_fragment (log_sonic_sketch (log_visual_moodboard inputs im th cp date t2)
          dm ds af tg date t1) ch fr na we date t3) date).daily_loop_complete = true)
      ∧ ((get_daily_completion_status
        (log_sonic_sketch (log_lore_fragment (log_visual_moodboard inputs im th cp date t2)
          ch fr na we date t3) dm ds af tg date t1) date).daily_loop_complete = true)
      ∧ ((get_daily_completion_status
        (log_visual_moodboard (log_sonic_sketch (log_lore_fragment inputs ch fr na we date t3)
          dm ds af tg date t1) im th cp date t2) date).daily_loop_complete = true)
      ∧ ((get_daily_completion_status
        (log_sonic_sketch (log_visual_moodboard (log_lore_fragment inputs ch fr na we date t3)
          im th cp date t2) dm ds af tg date t1) date).daily_loop_complete = true) := by
  intro inputs date dm ds af tg t1 im th cp t2 ch fr na we t3
  refine ⟨?_, ?_, ?_, ?_, ?_, ?_⟩ <;>
    simp [get_daily_completion_status, log_sonic_sketch, log_visual_moodboard,
      log_lore_fragment, dictGet_dictInsert_self]

/-! ## C8: deleting a nonexistent task -/

/-- C8: deleting a task id that is absent from the task list fails with the
NotFound error and leaves the persisted task list exactly as it was. -/
theorem delete_task_notfound (tasks : List LoopTask) (task_id : String)
    (h : task_id ∉ taskIds tasks) :
    delete_task tasks task_id =
      Except.error ("Task with ID " ++ task_id ++ " not found")
    ∧ runDeleteTask tasks task_id = tasks := by
  have hfil : tasks.filter (fun t => t.id != task_id) = tasks := by
    apply List.filter_eq_self.mpr
    intro t ht
    simp only [bne_iff_ne, ne_eq]
    intro he
    exact h (he ▸ List.mem_map_of_mem (fun t => t.id) ht)
  constructor
  · simp [delete_task, hfil]
  · simp [runDeleteTask, delete_task, hfil]

/-- Witness for C8 at a concrete input: deleting id 1 from the empty list. -/
theorem delete_task_notfound_witness :
    delete_task [] "1" = Except.error ("Task with ID " ++ "1" ++ " not found")
    ∧ runDeleteTask [] "1" = [] :=
  delete_task_notfound [] "1" (by simp [taskIds])

/-! ## C9: aggregator totality on missing data -/

/-- C9: every aggregator returns a result on missing data: a missing or
undecodable backing file loads as the empty collection; on a store with no
input days the daily status reports everything not done and the creative
stats report a completion rate of 0 (no division error), a streak of 0 and
zero totals; and on an empty outputs collection the weekly and monthly
progress report zero counts for every reference day and the goals not met. -/
theorem aggregators_missing_data_spec :
    (_load_data (α := Date × CreativeInput) none = [])
    ∧ (_load_data (α := String × CreativeOutput) none = [])
    ∧ (∀ d : Date, get_daily_completion_status [] d =
        { date := d, sonic_sketch_complete := false,
          visual_moodboard_complete := false, lore_fragment_complete := false,
          daily_loop_complete := false })
    ∧ (∀ today : Date,
        (get_weekly_progress [] today).micro_releases_this_week = 0
        ∧ (get_weekly_progress [] today).vst3_plugins_this_week = 0
        ∧ (get_weekly_progress [] today).weekly_goal_met = false)
    ∧ (∀ today : Date,
        (get_monthly_progress [] today).major_releases_this_month = 0
        ∧ (get_monthly_progress [] today).vst3_plugins_this_month = 0
        ∧ (get_monthly_progress [] today).monthly_goal_met = false)
    ∧ (∀ (processes : Processes) (outputs : Outputs) (today : Date),
        (get_creative_stats [] processes outputs today).completion_rate = 0
        ∧ (get_creative_stats [] processes outputs today).current_streak = 0
        ∧ (get_creative_stats [] processes outputs today).total_input_days = 0) := by
  refine ⟨rfl, rfl, ?_, ?_, ?_, ?_⟩
  · intro d
    simp [get_daily_completion_status, dictGet, emptyInput]
  · intro today
    refine ⟨?_, ?_, ?_⟩ <;> simp [get_weekly_progress]
  · intro today
    refine ⟨?_, ?_, ?_⟩ <;> simp [get_monthly_progress]
  · intro processes outputs today
    refine ⟨?_, ?_, ?_⟩ <;>
      simp [get_creative_stats, completedDays, _calculate_current_streak,
        streakFrom_nil]

/-! ## C10: editing a missing or non-vst3 output -/

/-- C10: editing a plugin id that is absent, or that names a document whose
output type is not vst3, returns false and leaves the outputs collection
unchanged (the missing-id case is a boolean result, not an exception). -/
theorem edit_vst3_missing_spec :
    ∀ (outputs : Outputs) (plugin_id : String)
      (title file_path description : Option String)
      (tags : Option (List String)) (now : String),
      (dictGet outputs plugin_id = none →
        edit_vst3_plugin outputs plugin_id title file_path description tags now
          = (false, outputs))
      ∧ (∀ doc, dictGet outputs plugin_id = some doc →
          doc.output_type ≠ OutputType.vst3 →
          edit_vst3_plugin outputs plugin_id title file_path description tags now
            = (false, outputs)) := by
  intro outputs pid t f d tg now
  constructor
  · intro h
    simp [edit_vst3_plugin, h]
  · intro doc h hne
    simp [edit_vst3_plugin, h, bne_iff_ne.mpr hne]

/-- Witness for C10 at a concrete input: the empty outputs collection. -/
theorem edit_vst3_missing_spec_witness :
    edit_vst3_plugin [] "vst3_1" none none none none "2024-01-01T00:00:00"
      = (false, []) :=
  (edit_vst3_missing_spec [] "vst3_1" none none none none
    "2024-01-01T00:00:00").1 rfl

/-! ## C1: current streak -/

theorem streakFrom_eq_zero (S : List Nat) (o : Nat) (h : o ∉ S) :
    streakFrom S o = 0 := by
  cases o <;> simp [streakFrom, h]

theorem streakFrom_lb (S : List Nat) :
    ∀ k o, k ≤ o → (∀ i, i ≤ k → o - i ∈ S) → k + 1 ≤ streakFrom S o := by
  intro k
  induction k with
  | zero =>
    intro o _ h
    have h0 : o ∈ S := by simpa using h 0 (Nat.le_refl 0)
    cases o <;> simp [streakFrom, h0]
  | succ k ih =>
    intro o hk h
    obtain ⟨m, rfl⟩ : ∃ m, o = m + 1 := ⟨o - 1, by omega⟩
    have h0 : m + 1 ∈ S := by simpa using h 0 (by omega)
    have hrec : streakFrom S (m + 1) = streakFrom S m + 1 := by
      simp [streakFrom, h0]
    rw [hrec]
    have hm : k + 1 ≤ streakFrom S m := by
      refine ih m (by omega) (fun i hi => ?_)
      have := h (i + 1) (by omega)
      simpa [Nat.succ_sub_succ] using this
    omega

theorem streakFrom_run (S : List Nat) :
    ∀ o i, i < streakFrom S o → o - i ∈ S := by
  intro o
  induction o with
  | zero =>
    intro i hi
    by_cases h : 0 ∈ S
    · simp only [streakFrom, if_pos h] at hi
      interval_cases i
      simpa using h
    · simp [streakFrom, h] at hi
  | succ m ih =>
    intro i hi
    by_cases h : m + 1 ∈ S
    · simp only [streakFrom, if_pos h] at hi
      cases i with
      | zero => simpa using h
      | succ j =>
        have := ih j (by omega)
        simpa [Nat.succ_sub_succ] using this
    · simp [streakFrom, h] at hi

/-- C1: the current streak of `get_creative_stats` counts the consecutive
calendar days ending at `today` whose DailyInput is complete: it is 0 when
`today` itself is not a completed day, it is at least `k + 1` whenever
`today` and the `k` immediately preceding days are all completed, and every
day it counts is a completed day. -/
theorem current_streak_spec :
    ∀ (inputs : Inputs) (processes : Processes) (outputs : Outputs) (today : Date),
      (toOrdinal today ∉ (completedDays inputs).map toOrdinal →
        (get_creative_stats inputs processes outputs today).current_streak = 0)
      ∧ (∀ k, k ≤ toOrdinal today →
          (∀ i, i ≤ k →
            toOrdinal today - i ∈ (completedDays inputs).map toOrdinal) →
          k + 1 ≤ (get_creative_stats inputs processes outputs today).current_streak)
      ∧ (∀ i, i < (get_creative_stats inputs processes outputs today).current_streak →
          toOrdinal today - i ∈ (completedDays inputs).map toOrdinal) := by
  intro inputs processes outputs today
  refine ⟨?_, ?_, ?_⟩
  · intro h
    simp [get_creative_stats, _calculate_current_streak, streakFrom_eq_zero _ _ h]
  · intro k hk h
    simpa [get_creative_stats, _calculate_current_streak] using
      streakFrom_lb _ k _ hk h
  · intro i hi
    refine streakFrom_run _ _ i ?_
    simpa [get_creative_stats, _calculate_current_streak] using hi

/-! Concrete example data: three fully complete days 2024-01-01 .. 2024-01-03. -/

def exSketch : SonicSketch :=
  { duration_minutes := 30, description := "sketch", audio_file := none,
    tags := [], timestamp := "2024-01-01T10:00:00" }

def exMood : VisualMoodboard :=
  { images := ["a.png"], theme := "neon", color_palette := [],
    timestamp := "2024-01-01T11:00:00" }

def exLore : LoreFragment :=
  { character := "V", fragment := "fragment", narrative_arc := "arc",
    world_building_elements := [], timestamp := "2024-01-01T12:00:00" }

def exCompleteInput (d : Date) : CreativeInput :=
  { date := d, sonic_sketch := some exSketch, visual_moodboard := some exMood,
    lore_fragment := some exLore }

def exInputs : Inputs :=
  [(Date.mk 2024 1 1, exCompleteInput (Date.mk 2024 1 1)),
   (Date.mk 2024 1 2, exCompleteInput (Date.mk 2024 1 2)),
   (Date.mk 2024 1 3, exCompleteInput (Date.mk 2024 1 3))]

/-- Witness for C1 at a concrete input: with 2024-01-01 .. 2024-01-03 all
complete and `today` = 2024-01-03, the streak is at least 3. -/
theorem current_streak_spec_witness :
    2 + 1 ≤ (get_creative_stats exInputs [] [] (Date.mk 2024 1 3)).current_streak :=
  (current_streak_spec exInputs [] [] (Date.mk 2024 1 3)).2.1 2
    (by decide) (by decide)

/-! ## C3 and C4: weekly and monthly progress -/

theorem toOrdinal_pos (d : Date) (h : 1 ≤ d.day) : 1 ≤ toOrdinal d := by
  simp only [toOrdinal]
  omega

/-! Concrete example outputs for the weekly and monthly goal scenarios. -/

def exMicroOut : CreativeOutput :=
  { title := "beat", output_type := OutputType.micro, category := "beat",
    file_path := none, description := "", release_date := Date.mk 2024 1 2,
    tags := [], modified_date := none }

def exVstOn (d : Date) : CreativeOutput :=
  { title := "plugin", output_type := OutputType.vst3, category := "plugin",
    file_path := none, description := "", release_date := d,
    tags := [], modified_date := none }

def exMajorOut : CreativeOutput :=
  { title := "track", output_type := OutputType.major, category := "track",
    file_path := none, description := "", release_date := Date.mk 2024 1 10,
    tags := [], modified_date := none }

def exWeekStore : Outputs :=
  [("micro_1", exMicroOut), ("vst3_1", exVstOn (Date.mk 2024 1 2))]

def exWeekMicroOnly : Outputs := [("micro_1", exMicroOut)]

def exMonthStore4 : Outputs :=
  [("major_1", exMajorOut),
   ("vst3_1", exVstOn (Date.mk 2024 1 2)),
   ("vst3_2", exVstOn (Date.mk 2024 1 3)),
   ("vst3_3", exVstOn (Date.mk 2024 1 4)),
   ("vst3_4", exVstOn (Date.mk 2024 1 5))]

def exMonthStore3 : Outputs :=
  [("major_1", exMajorOut),
   ("vst3_1", exVstOn (Date.mk 2024 1 2)),
   ("vst3_2", exVstOn (Date.mk 2024 1 3)),
   ("vst3_3", exVstOn (Date.mk 2024 1 4))]

/-- C3: the weekly progress of any store reports the most recent Monday on
or before `today` as week start, counts the stored micro and vst3 outputs
released on or after it, and meets the goal exactly when there is at least
one of each; concretely, in the week starting Monday 2024-01-01, a micro
and a vst3 output released 2024-01-02 meet the goal at 2024-01-03, while
the micro output alone does not. -/
theorem weekly_progress_spec :
    (∀ (outputs : Outputs) (today : Date), 1 ≤ today.day →
      (weekday (get_weekly_progress outputs today).week_start = 0
        ∧ (get_weekly_progress outputs today).week_start ≤ toOrdinal today
        ∧ (∀ o : Nat, weekday o = 0 → o ≤ toOrdinal today →
            o ≤ (get_weekly_progress outputs today).week_start))
      ∧ (get_weekly_progress outputs today).micro_releases_this_week =
          (outputs.filter (fun p => p.2.output_type == OutputType.micro &&
            decide ((get_weekly_progress outputs today).week_start ≤
              toOrdinal p.2.release_date))).length
      ∧ (get_weekly_progress outputs today).vst3_plugins_this_week =
          (outputs.filter (fun p => p.2.output_type == OutputType.vst3 &&
            decide ((get_weekly_progress outputs today).week_start ≤
              toOrdinal p.2.release_date))).length
      ∧ ((get_weekly_progress outputs today).weekly_goal_met = true ↔
          1 ≤ (get_weekly_progress outputs today).micro_releases_this_week
          ∧ 1 ≤ (get_weekly_progress outputs today).vst3_plugins_this_week))
    ∧ (get_weekly_progress exWeekStore (Date.mk 2024 1 3)).week_start =
        toOrdinal (Date.mk 2024 1 1)
    ∧ (get_weekly_progress exWeekStore (Date.mk 2024 1 3)).weekly_goal_met = true
    ∧ (get_weekly_progress exWeekMicroOnly (Date.mk 2024 1 3)).weekly_goal_met
        = false := by
  refine ⟨?_, by decide, by decide, by decide⟩
  intro outputs today hday
  have ht : 1 ≤ toOrdinal today := toOrdinal_pos today hday
  refine ⟨⟨?_, ?_, ?_⟩, ?_, ?_, ?_⟩
  · simp only [get_weekly_progress, weekday]
    omega
  · simp only [get_weekly_progress]
    omega
  · intro o ho hle
    simp only [weekday] at ho
    simp only [get_weekly_progress, weekday]
    omega
  · simp only [get_weekly_progress]
    exact congrArg List.length
      (List.filter_congr (fun p _ => Bool.and_comm _ _))
  · simp only [get_weekly_progress]
    exact congrArg List.length
      (List.filter_congr (fun p _ => Bool.and_comm _ _))
  · simp [get_weekly_progress]

/-- Witness for C3 at a concrete input: at 2024-01-03 the computed week
start is a Monday. -/
theorem weekly_progress_spec_witness :
    weekday (get_weekly_progress [] (Date.mk 2024 1 3)).week_start = 0 :=
  ((weekly_progress_spec.1 [] (Date.mk 2024 1 3) (by norm_num)).1).1

/-- C4: the monthly progress of any store reports the first day of the month
of `today` as month start, counts the stored major and vst3 outputs released
on or after it, and meets the goal exactly when there is at least one major
and at least four vst3 outputs; concretely, one major and four vst3 outputs
dated within January 2024 meet the goal at 2024-01-15, while one major and
three vst3 outputs do not. -/
theorem monthly_progress_spec :
    (∀ (outputs : Outputs) (today : Date),
      (get_monthly_progress outputs today).month_start =
        Date.mk today.year today.month 1
      ∧ (get_monthly_progress outputs today).major_releases_this_month =
          (outputs.filter (fun p => p.2.output_type == OutputType.major &&
            decide (toOrdinal (Date.mk today.year today.month 1) ≤
              toOrdinal p.2.release_date))).length
      ∧ (get_monthly_progress outputs today).vst3_plugins_this_month =
          (outputs.filter (fun p => p.2.output_type == OutputType.vst3 &&
            decide (toOrdinal (Date.mk today.year today.month 1) ≤
              toOrdinal p.2.release_date))).length
      ∧ ((get_monthly_progress outputs today).monthly_goal_met = true ↔
          1 ≤ (get_monthly_progress outputs today).major_releases_this_month
          ∧ 4 ≤ (get_monthly_progress outputs today).vst3_plugins_this_month))
    ∧ (get_monthly_progress exMonthStore4 (Date.mk 2024 1 15)).monthly_goal_met
        = true
    ∧ (get_monthly_progress exMonthStore3 (Date.mk 2024 1 15)).monthly_goal_met
        = false := by
  refine ⟨?_, by decide, by decide⟩
  intro outputs today
  refine ⟨rfl, ?_, ?_, ?_⟩
  · simp only [get_monthly_progress]
    exact congrArg List.length
      (List.filter_congr (fun p _ => Bool.and_comm _ _))
  · simp only [get_monthly_progress]
    exact congrArg List.length
      (List.filter_congr (fun p _ => Bool.and_comm _ _))
  · simp [get_monthly_progress]

/-! ## C2: per-kind output id assignment -/

theorem countType_append (l : Outputs) (k : String) (o : CreativeOutput)
    (t : OutputType) :
    countType (l ++ [(k, o)]) t =
      countType l t + (if o.output_type == t then 1 else 0) := by
  simp only [countType, List.filter_append, List.length_append]
  cases h : o.output_type == t <;> simp [h]

/-- Store invariant under which logging appends: no stored key uses the
per-kind prefix with an index above the current per-kind count. Holds for
the empty store and is preserved by every log call of that kind. -/
def FreshAbove (pre : String) (t : OutputType) (s : Outputs) : Prop :=
  ∀ m : Nat, countType s t + 1 ≤ m → (pre ++ natToStr m) ∉ dictKeys s

theorem log_step (pre : String) (t : OutputType) (o : CreativeOutput)
    (ho : o.output_type = t) (s : Outputs) (hf : FreshAbove pre t s) :
    dictInsert s (pre ++ natToStr (countType s t + 1)) o
      = s ++ [(pre ++ natToStr (countType s t + 1), o)]
    ∧ countType (dictInsert s (pre ++ natToStr (countType s t + 1)) o) t
      = countType s t + 1
    ∧ FreshAbove pre t (dictInsert s (pre ++ natToStr (countType s t + 1)) o) := by
  have hkey : (pre ++ natToStr (countType s t + 1)) ∉ dictKeys s :=
    hf _ (Nat.le_refl _)
  have heq := dictInsert_of_not_mem s _ o hkey
  have hcount : countType (s ++ [(pre ++ natToStr (countType s t + 1), o)]) t
      = countType s t + 1 := by
    rw [countType_append]
    simp [ho]
  refine ⟨heq, by rw [heq, hcount], ?_⟩
  rw [heq]
  intro m hm
  rw [hcount] at hm
  simp only [dictKeys, List.map_append, List.mem_append, List.map_cons,
    List.map_nil, List.mem_singleton]
  rintro (h1 | h2)
  · exact hf m (by omega) h1
  · have := append_natToStr_inj pre h2
    omega

structure OutputArgs where
  title : String
  category : String
  file_path : Option String
  description : String
  tags : List String
  now : Date

def kindPre : OutputType → String
  | OutputType.micro => "micro_"
  | OutputType.major => "major_"
  | OutputType.vst3 => "vst3_"

def outputDoc (t : OutputType) (a : OutputArgs) : CreativeOutput :=
  { title := a.title, output_type := t,
    category := match t with
      | OutputType.vst3 => "plugin"
      | _ => a.category,
    file_path := a.file_path, description := a.description,
    release_date := a.now, tags := a.tags, modified_date := none }

/-- The log call for a given output kind. -/
def logOfKind (t : OutputType) (outputs : Outputs) (a : OutputArgs) :
    String × Outputs :=
  match t with
  | OutputType.micro =>
      log_micro_release outputs a.title a.category a.file_path a.description
        a.tags a.now
  | OutputType.major =>
      log_major_release outputs a.title a.category a.file_path a.description
        a.tags a.now
  | OutputType.vst3 =>
      log_vst3_plugin outputs a.title a.file_path a.description a.tags a.now

theorem logOfKind_eq (t : OutputType) (s : Outputs) (a : OutputArgs) :
    logOfKind t s a =
      (kindPre t ++ natToStr (countType s t + 1),
       dictInsert s (kindPre t ++ natToStr (countType s t + 1)) (outputDoc t a)) := by
  cases t <;> rfl

/-- The store after `n` consecutive log calls of one kind. -/
def logIter (t : OutputType) (argf : Nat → OutputArgs) (s : Outputs) :
    Nat → Outputs
  | 0 => s
  | n + 1 => (logOfKind t (logIter t argf s n) (argf n)).2

/-- The id assigned by the `n`-th (0-based) consecutive log call of a kind. -/
def logIterId (t : OutputType) (argf : Nat → OutputArgs) (s : Outputs)
    (n : Nat) : String :=
  (logOfKind t (logIter t argf s n) (argf n)).1

theorem logIter_inv (t : OutputType) (argf : Nat → OutputArgs) :
    ∀ n, countType (logIter t argf [] n) t = n
      ∧ FreshAbove (kindPre t) t (logIter t argf [] n) := by
  intro n
  induction n with
  | zero =>
    refine ⟨by simp [logIter, countType], ?_⟩
    intro m _
    simp [logIter, dictKeys]
  | succ n ih =>
    obtain ⟨hc, hf⟩ := ih
    have step := log_step (kindPre t) t (outputDoc t (argf n))
      (by cases t <;> rfl) _ hf
    rw [hc] at step
    simp only [logIter, logOfKind_eq]
    rw [hc]
    exact ⟨step.2.1, step.2.2⟩

/-- C2: every log call assigns the id built from the per-kind prefix and the
count of existing documents of that kind plus one; consequently, starting
from the empty store, the n-th consecutive log call of a kind is assigned
`kind_n`, so the ids of a kind are `kind_1, kind_2, kind_3, …`, pairwise
distinct and never reused. -/
theorem output_ids_spec :
    (∀ (outputs : Outputs) (title category : String) (fp : Option String)
        (desc : String) (tags : List String) (now : Date),
      (log_micro_release outputs title category fp desc tags now).1 =
        "micro_" ++ natToStr (countType outputs OutputType.micro + 1)
      ∧ (log_major_release outputs title category fp desc tags now).1 =
        "major_" ++ natToStr (countType outputs OutputType.major + 1)
      ∧ (log_vst3_plugin outputs title fp desc tags now).1 =
        "vst3_" ++ natToStr (countType outputs OutputType.vst3 + 1))
    ∧ (∀ (t : OutputType) (argf : Nat → OutputArgs) (n : Nat),
        logIterId t argf [] n = kindPre t ++ natToStr (n + 1))
    ∧ (∀ (t : OutputType) (argf : Nat → OutputArgs) (i j : Nat), i ≠ j →
        logIterId t argf [] i ≠ logIterId t argf [] j) := by
  have hid : ∀ (t : OutputType) (argf : Nat → OutputArgs) (n : Nat),
      logIterId t argf [] n = kindPre t ++ natToStr (n + 1) := by
    intro t argf n
    simp [logIterId, logOfKind_eq, (logIter_inv t argf n).1]
  refine ⟨?_, hid, ?_⟩
  · intro outputs title category fp desc tags now
    exact ⟨rfl, rfl, rfl⟩
  · intro t argf i j hij
    rw [hid t argf i, hid t argf j]
    intro h
    exact hij (by have := append_natToStr_inj (kindPre t) h; omega)

def exArgf : Nat → OutputArgs := fun _ =>
  { title := "x", category := "beat", file_path := none, description := "",
    tags := [], now := Date.mk 2024 1 2 }

/-- Witness for C2 at a concrete input: the first two consecutively assigned
micro ids differ. -/
theorem output_ids_spec_witness :
    logIterId OutputType.micro exArgf [] 0 ≠ logIterId OutputType.micro exArgf [] 1 :=
  output_ids_spec.2.2 OutputType.micro exArgf 0 1 (by decide)

/-! ## C7: task id assignment -/

theorem freeFrom_ge (ids : List String) :
    ∀ fuel n, n ≤ freeFrom ids n fuel := by
  intro fuel
  induction fuel with
  | zero => intro n; simp [freeFrom]
  | succ f ih =>
    intro n
    by_cases h : natToStr n ∈ ids
    · simp only [freeFrom, if_pos h]
      exact Nat.le_trans (Nat.le_succ n) (ih (n + 1))
    · simp [freeFrom, h]

theorem freeFrom_min (ids : List String) :
    ∀ fuel n m, n ≤ m → m < freeFrom ids n fuel → natToStr m ∈ ids := by
  intro fuel
  induction fuel with
  | zero =>
    intro n m h1 h2
    simp only [freeFrom] at h2
    omega
  | succ f ih =>
    intro n m h1 h2
    by_cases h : natToStr n ∈ ids
    · simp only [freeFrom, if_pos h] at h2
      rcases Nat.eq_or_lt_of_le h1 with rfl | hlt
      · exact h
      · exact ih (n + 1) m hlt h2
    · simp only [freeFrom, if_neg h] at h2
      omega

theorem freeFrom_free (ids : List String) :
    ∀ fuel n, (∃ m, n ≤ m ∧ m < n + fuel ∧ natToStr m ∉ ids) →
      natToStr (freeFrom ids n fuel) ∉ ids := by
  intro fuel
  induction fuel with
  | zero =>
    rintro n ⟨m, h1, h2, _⟩
    omega
  | succ f ih =>
    rintro n ⟨m, h1, h2, h3⟩
    by_cases h : natToStr n ∈ ids
    · simp only [freeFrom, if_pos h]
      apply ih (n + 1)
      refine ⟨m, ?_, by omega, h3⟩
      rcases Nat.eq_or_lt_of_le h1 with rfl | hlt
      · exact absurd h h3
      · omega
    · simp only [freeFrom, if_neg h]
      exact h

/-- Pigeonhole: among `ids.length + 1` consecutive candidate indices at least
one decimal string is not an existing id, so the search loop of `add_task`
terminates within its fuel. -/
theorem exists_free_id (ids : List String) (n : Nat) :
    ∃ m, n ≤ m ∧ m < n + (ids.length + 1) ∧ natToStr m ∉ ids := by
  by_contra hc
  push_neg at hc
  have hinj : Function.Injective (fun i : Nat => natToStr (n + i)) := by
    intro a b hab
    have := natToStr_injective hab
    omega
  have hnodup :
      ((List.range (ids.length + 1)).map (fun i => natToStr (n + i))).Nodup :=
    (List.nodup_range _).map hinj
  have hsub :
      ((List.range (ids.length + 1)).map (fun i => natToStr (n + i))) ⊆ ids := by
    intro x hx
    simp only [List.mem_map, List.mem_range] at hx
    obtain ⟨i, hi, rfl⟩ := hx
    exact hc (n + i) (by omega) (by omega)
  have h1 :
      ((List.range (ids.length + 1)).map (fun i => natToStr (n + i))).length
        ≤ ids.length := by
    calc ((List.range (ids.length + 1)).map (fun i => natToStr (n + i))).length
        = ((List.range (ids.length + 1)).map
            (fun i => natToStr (n + i))).toFinset.card :=
          (List.toFinset_card_of_nodup hnodup).symm
      _ ≤ ids.toFinset.card := Finset.card_le_card (by
          intro x hx
          simp only [List.mem_toFinset] at hx ⊢
          exact hsub hx)
      _ ≤ ids.length := ids.toFinset_card_le
  simp only [List.length_map, List.length_range] at h1
  omega

/-- C7: `add_task` assigns the smallest unused decimal id obtained by
starting at `count + 1` and incrementing past collisions: the new id is a
decimal numeral of some index at least `count + 1`, it collides with no
existing id, every skipped candidate below it was an existing id, the new
task is appended, and pairwise-unique ids stay pairwise unique. -/
theorem add_task_spec :
    ∀ (tasks : List LoopTask) (text priority now : String),
      (∃ nid : Nat,
        (add_task tasks text priority now).1.id = natToStr nid
        ∧ tasks.length + 1 ≤ nid
        ∧ natToStr nid ∉ taskIds tasks
        ∧ (∀ m, tasks.length + 1 ≤ m → m < nid →
            natToStr m ∈ taskIds tasks))
      ∧ taskIds (add_task tasks text priority now).2 =
          taskIds tasks ++ [(add_task tasks text priority now).1.id]
      ∧ ((taskIds tasks).Nodup →
          (taskIds (add_task tasks text priority now).2).Nodup) := by
  intro tasks text priority now
  have hlen : (taskIds tasks).length = tasks.length := by
    simp [taskIds]
  have hfree :
      natToStr (freeFrom (taskIds tasks) (tasks.length + 1) (tasks.length + 1))
        ∉ taskIds tasks := by
    apply freeFrom_free (taskIds tasks) (tasks.length + 1) (tasks.length + 1)
    obtain ⟨m, h1, h2, h3⟩ := exists_free_id (taskIds tasks) (tasks.length + 1)
    exact ⟨m, h1, by omega, h3⟩
  have happ : taskIds (add_task tasks text priority now).2 =
      taskIds tasks ++ [(add_task tasks text priority now).1.id] := by
    simp [add_task, taskIds]
  refine ⟨⟨freeFrom (taskIds tasks) (tasks.length + 1) (tasks.length + 1),
      rfl, freeFrom_ge _ _ _, hfree, ?_⟩, happ, ?_⟩
  · intro m hm1 hm2
    exact freeFrom_min (taskIds tasks) (tasks.length + 1) (tasks.length + 1) m hm1 hm2
  · intro hnd
    rw [happ]
    refine List.Nodup.append hnd (List.nodup_singleton _) ?_
    intro a ha hb
    simp only [List.mem_singleton] at hb
    subst hb
    exact hfree ha

/-- Witness for C7 at a concrete input: adding a task to the empty list
keeps the ids pairwise unique. -/
theorem add_task_spec_witness :
    (taskIds (add_task [] "write" "medium" "2024-01-01T00:00:00").2).Nodup :=
  (add_task_spec [] "write" "medium" "2024-01-01T00:00:00").2.2
    (by simp [taskIds])

/-- Witness for C4 at a concrete input: at 2024-02-20 the reported month
start is 2024-02-01. -/
theorem monthly_progress_spec_witness :
    (get_monthly_progress [] (Date.mk 2024 2 20)).month_start =
      Date.mk 2024 2 1 :=
  (monthly_progress_spec.1 [] (Date.mk 2024 2 20)).1
